import Mathlib

/-!
# Verification of the Tithi booking backend core

A shallow embedding of the availability / booking / outbox subsystem of the
backend (`app/services/business_phase2.py`, `app/jobs/outbox_worker.py`,
`app/models/system.py`), together with theorems settling the spec claims.

Embedding conventions:
* Python `datetime` values become seconds since an epoch, plain `Nat`;
  `datetime.date()` becomes `dateOf`, `.hour` becomes `hourOf`.
* ORM tables become lists of structures inside a `DB` record; `query.filter`
  becomes `List.filter`, `.first()` becomes `List.find?`, `session.add`
  appends, and SQL `ORDER BY x ASC LIMIT n` becomes a stable sort followed by
  `List.take`.
* Raised `ValidationError` / `ValueError` / `BusinessLogicError` become an
  `Except Err` result.  `DatabaseError` (storage failure) is not modelled:
  every modelled write succeeds.
* The Redis cache services (`AvailabilityCacheService` etc.) are external
  collaborators; they are embedded as a cache miss / no-op, matching the
  spec's "the cache is an optimization, not a source of truth".
* `uuid.uuid4()` results are passed in as explicit `fresh_*` arguments.
* Two blocks of `business_phase2.py` (`_is_staff_available` and
  `delete_staff_profile`) have corrupted indentation in the sources; the
  embedding of `_is_staff_available` follows the evident intended block
  structure indicated by its comments.
-/

/- A Python `datetime` is embedded as seconds since an epoch, and a Python
`date` as days since the epoch; both are plain `Nat`. -/

def secondsPerDay : Nat := 86400

/-- `datetime.date()`: the calendar day a time falls on. -/
def dateOf (t : Nat) : Nat := t / secondsPerDay

/-- `datetime.hour`: the hour-of-day component of a time. -/
def hourOf (t : Nat) : Nat := t % secondsPerDay / 3600

/-- `datetime.combine(date, time(hour=h))`. -/
def combineDayHour (d : Nat) (h : Nat) : Nat := d * secondsPerDay + h * 3600

/-- `BusinessConfig.DEFAULT_BUSINESS_START_HOUR`. -/
def DEFAULT_BUSINESS_START_HOUR : Nat := 9

/-- `BusinessConfig.DEFAULT_BUSINESS_END_HOUR`. -/
def DEFAULT_BUSINESS_END_HOUR : Nat := 17

/-- `BusinessConfig.MAX_RETRY_ATTEMPTS`. -/
def MAX_RETRY_ATTEMPTS : Nat := 3

/-- The booking status strings used by the services. -/
inductive BookingStatus
  | pending
  | confirmed
  | checked_in
  | completed
  | canceled
  | no_show
  | failed
deriving DecidableEq, Repr

/-- The `schedule_type` strings accepted by `create_work_schedule`. -/
inductive ScheduleType
  | regular
  | override
  | time_off
  | holiday
deriving DecidableEq, Repr

/-- `Resource` row (bookable staff member or asset), tenant scoped. -/
structure Resource where
  id : Nat
  tenant_id : Nat
deriving DecidableEq, Repr

/-- `Customer` row; only the fields the booking path touches. -/
structure Customer where
  id : Nat
  tenant_id : Nat
deriving DecidableEq, Repr

/-- `Service` row; `deleted` embeds `deleted_at is not None`. -/
structure Service where
  id : Nat
  tenant_id : Nat
  name : String
  duration_min : Nat
  price_cents : Nat
  category : String
  deleted : Bool
deriving DecidableEq, Repr

/-- The denormalized `service_snapshot` dict written by `create_booking`. -/
structure ServiceSnapshot where
  service_id : Nat
  name : String
  duration_min : Nat
  price_cents : Nat
  category : String
deriving DecidableEq, Repr

/-- `Booking` row. -/
structure Booking where
  id : Nat
  tenant_id : Nat
  customer_id : Nat
  resource_id : Nat
  client_generated_id : Nat
  service_snapshot : ServiceSnapshot
  start_at : Nat
  end_at : Nat
  status : BookingStatus
  no_show_flag : Bool
  canceled_at : Option Nat
  rescheduled_from : Option Nat
  updated_at : Option Nat
deriving DecidableEq, Repr

/-- `BookingHold` row. -/
structure BookingHold where
  tenant_id : Nat
  resource_id : Nat
  service_id : Nat
  hold_key : Nat
  start_at : Nat
  end_at : Nat
  hold_until : Nat
deriving DecidableEq, Repr

/-- `StaffProfile` row; only the fields the availability path touches. -/
structure StaffProfile where
  id : Nat
  tenant_id : Nat
  resource_id : Nat
  is_active : Bool
deriving DecidableEq, Repr

/-- `WorkSchedule` row.  The `work_hours` JSON dict is embedded as its two
optional entries `start_hour` / `end_hour`; an absent dict or absent entry
both fall back to the business-hours defaults via `Option.getD`. -/
structure WorkSchedule where
  tenant_id : Nat
  staff_profile_id : Nat
  schedule_type : ScheduleType
  start_date : Nat
  end_date : Option Nat
  work_start_hour : Option Nat
  work_end_hour : Option Nat
  is_time_off : Bool
  overrides_regular : Bool
deriving DecidableEq, Repr

/-- The JSON payload of an outbox event; only the fields the worker's
handlers and the emitting services read or write. -/
structure OutboxPayload where
  force_fail : Bool := false
  booking_id : Option Nat := none
deriving DecidableEq, Repr

/-- `EventOutbox` row (`app/models/system.py`).  `status` stays a `String`
because `_emit_event` writes the out-of-vocabulary value `"pending"`. -/
structure EventOutbox where
  id : Nat
  tenant_id : Nat
  event_code : String
  payload : OutboxPayload
  status : String
  ready_at : Nat
  delivered_at : Option Nat := none
  failed_at : Option Nat := none
  attempts : Nat
  max_attempts : Nat
  last_attempt_at : Option Nat := none
  error_message : Option String := none
deriving DecidableEq, Repr

/-- The `ck_events_outbox_status` check constraint declared on the
`events_outbox` table: `status IN ('ready', 'delivered', 'failed')`. -/
def ckEventsOutboxStatus (event : EventOutbox) : Prop :=
  event.status = "ready" ∨ event.status = "delivered" ∨ event.status = "failed"

instance (event : EventOutbox) : Decidable (ckEventsOutboxStatus event) := by
  unfold ckEventsOutboxStatus; infer_instance

/-- `AuditLog` row; only the identifying fields. -/
structure AuditLog where
  tenant_id : Nat
  table_name : String
  record_id : Nat
  operation : String
  user_id : Nat
deriving DecidableEq, Repr

/-- One availability slot dict as produced by the availability calculator.
`schedule_type = none` embeds the literal string `'default'` used by
`_get_default_day_slots`. -/
structure Slot where
  start_at : Nat
  end_at : Nat
  available : Bool
  schedule_type : Option ScheduleType
deriving DecidableEq, Repr

/-- The relational state: one list per table the embedded services touch. -/
structure DB where
  resources : List Resource
  customers : List Customer
  services : List Service
  bookings : List Booking
  holds : List BookingHold
  staff_profiles : List StaffProfile
  schedules : List WorkSchedule
  outbox : List EventOutbox
  audit_logs : List AuditLog
deriving DecidableEq, Repr

/-- The exceptions the embedded services raise for expected outcomes. -/
inductive Err
  | validationError (msg : String)
  | valueError (msg : String)
  | businessLogicError (msg : String)
deriving DecidableEq, Repr

/-- The statuses treated as blocking by `calculate_availability` and
`is_time_available`: `['pending', 'confirmed', 'checked_in']`. -/
def bookingBlockingStatuses : List BookingStatus :=
  [.pending, .confirmed, .checked_in]

/-- The WorkSchedule query window used by `calculate_availability`,
`_is_staff_available` and `get_staff_availability`:
`start_date <= endD AND (end_date IS NULL OR end_date >= startD)`. -/
def scheduleInWindow (s : WorkSchedule) (startD endD : Nat) : Bool :=
  decide (s.start_date ≤ endD) && s.end_date.all (fun ed => decide (startD ≤ ed))

/-- The per-day schedule filter in `_generate_availability_slots`:
`s.start_date <= current_date and (s.end_date is None or s.end_date >= current_date)`. -/
def coversDay (s : WorkSchedule) (d : Nat) : Bool :=
  decide (s.start_date ≤ d) && s.end_date.all (fun ed => decide (d ≤ ed))

/-- The day iteration `while current_date <= end_date_only`, collecting each
day visited (empty when the end day precedes the start day). -/
def daysFromTo (d1 d2 : Nat) : List Nat :=
  (List.range (d2 + 1 - d1)).map (fun i => d1 + i)

/-- The hour iteration `while current_hour < end_hour` starting at
`start_hour` (empty when `end_hour <= start_hour`). -/
def hourRange (start_hour end_hour : Nat) : List Nat :=
  (List.range (end_hour - start_hour)).map (fun i => start_hour + i)

/-- `AvailabilityService._get_default_day_slots`: one always-available slot
per default business hour; the `'default'` schedule type is `none`. -/
def _get_default_day_slots (date : Nat) : List Slot :=
  (hourRange DEFAULT_BUSINESS_START_HOUR DEFAULT_BUSINESS_END_HOUR).map (fun hour =>
    { start_at := combineDayHour date hour
      end_at := combineDayHour date hour + 3600
      available := true
      schedule_type := none })

/-- `AvailabilityService._get_default_availability`. -/
def _get_default_availability (start_date end_date : Nat) : List Slot :=
  (daysFromTo (dateOf start_date) (dateOf end_date)).flatMap _get_default_day_slots

/-- The body of the `for schedule in schedules` loop of
`AvailabilityService._generate_day_slots`: a time-off schedule is skipped
(`continue`), any other schedule contributes one slot per work hour, marked
unavailable exactly when it overlaps one of the given bookings. -/
def _scheduleDaySlots (schedule : WorkSchedule) (bookings : List Booking) (date : Nat) :
    List Slot :=
  if schedule.is_time_off then []
  else
    let start_hour := schedule.work_start_hour.getD DEFAULT_BUSINESS_START_HOUR
    let end_hour := schedule.work_end_hour.getD DEFAULT_BUSINESS_END_HOUR
    (hourRange start_hour end_hour).map (fun hour =>
      let slot_start := combineDayHour date hour
      let slot_end := slot_start + 3600
      { start_at := slot_start
        end_at := slot_end
        available := !(bookings.any (fun b => decide (b.start_at < slot_end ∧ b.end_at > slot_start)))
        schedule_type := some schedule.schedule_type })

/-- `AvailabilityService._generate_day_slots`. -/
def _generate_day_slots (date : Nat) (schedules : List WorkSchedule)
    (bookings : List Booking) : List Slot :=
  if schedules.isEmpty then _get_default_day_slots date
  else schedules.flatMap (fun s => _scheduleDaySlots s bookings date)

/-- `AvailabilityService._generate_availability_slots`: per visited day,
filter the schedules covering the day and the bookings starting that day,
then generate the day's slots. -/
def _generate_availability_slots (start_date end_date : Nat)
    (schedules : List WorkSchedule) (bookings : List Booking) : List Slot :=
  (daysFromTo (dateOf start_date) (dateOf end_date)).flatMap (fun current_date =>
    let day_schedules := schedules.filter (fun s => coversDay s current_date)
    let day_bookings := bookings.filter (fun b => decide (dateOf b.start_at = current_date))
    _generate_day_slots current_date day_schedules day_bookings)

/-- `AvailabilityService.calculate_availability`.  The Redis cache lookup is
embedded as a miss (the cache service is an external collaborator).  Note
that the function never reads the current time and never queries the
`BookingHold` table. -/
def calculate_availability (db : DB) (tenant_id resource_id : Nat)
    (start_date end_date : Nat) : Except Err (List Slot) :=
  match db.resources.find? (fun r => decide (r.tenant_id = tenant_id ∧ r.id = resource_id)) with
  | none => .error (.valueError "Resource not found")
  | some _ =>
    match db.staff_profiles.find?
        (fun p => decide (p.tenant_id = tenant_id ∧ p.resource_id = resource_id)) with
    | none => .ok (_get_default_availability start_date end_date)
    | some staff_profile =>
      let schedules := db.schedules.filter (fun s =>
        decide (s.tenant_id = tenant_id ∧ s.staff_profile_id = staff_profile.id) &&
        scheduleInWindow s (dateOf start_date) (dateOf end_date))
      let bookings := db.bookings.filter (fun b =>
        decide (b.tenant_id = tenant_id ∧ b.resource_id = resource_id ∧
          b.status ∈ bookingBlockingStatuses ∧
          b.start_at < end_date ∧ b.end_at > start_date))
      .ok (_generate_availability_slots start_date end_date schedules bookings)

/-- The schedule scan of `AvailabilityService._is_staff_available` (the
block with corrupted indentation, embedded from its evident intent): a
time-off schedule covering the start date rejects; the first regular
schedule decides by comparing the hour components against its work hours;
no schedule at all rejects (the Python function falls through returning
`None`, which is falsy). -/
def _staffScheduleScan (start_at end_at : Nat) : List WorkSchedule → Bool
  | [] => false
  | schedule :: rest =>
    if schedule.is_time_off then
      if coversDay schedule (dateOf start_at) then false
      else _staffScheduleScan start_at end_at rest
    else
      let start_hour := schedule.work_start_hour.getD DEFAULT_BUSINESS_START_HOUR
      let end_hour := schedule.work_end_hour.getD DEFAULT_BUSINESS_END_HOUR
      decide (hourOf start_at ≥ start_hour ∧ hourOf end_at ≤ end_hour)

/-- `AvailabilityService._is_staff_available`. -/
def _is_staff_available (db : DB) (staff_profile : StaffProfile)
    (start_at end_at : Nat) : Bool :=
  let schedules := db.schedules.filter (fun s =>
    decide (s.tenant_id = staff_profile.tenant_id ∧
      s.staff_profile_id = staff_profile.id) &&
    scheduleInWindow s (dateOf start_at) (dateOf start_at))
  _staffScheduleScan start_at end_at schedules

/-- `AvailabilityService.is_time_available`: validates the interval, then
checks blocking bookings, then non-expired holds, then requires an active
staff profile whose schedule covers the interval. -/
def is_time_available (db : DB) (now : Nat) (tenant_id resource_id : Nat)
    (start_at end_at : Nat) : Except Err Bool :=
  if start_at ≥ end_at then .error (.validationError "Start time must be before end time")
  else if (db.bookings.find? (fun b =>
      decide (b.tenant_id = tenant_id ∧ b.resource_id = resource_id ∧
        b.status ∈ bookingBlockingStatuses ∧
        b.start_at < end_at ∧ b.end_at > start_at))).isSome then .ok false
  else if (db.holds.find? (fun h =>
      decide (h.tenant_id = tenant_id ∧ h.resource_id = resource_id ∧
        h.hold_until > now ∧
        h.start_at < end_at ∧ h.end_at > start_at))).isSome then .ok false
  else
    match db.staff_profiles.find? (fun p =>
        decide (p.tenant_id = tenant_id ∧ p.resource_id = resource_id ∧
          p.is_active = true)) with
    | none => .ok false
    | some staff_profile => .ok (_is_staff_available db staff_profile start_at end_at)

/-- `AvailabilityService.release_booking_hold`: looks the hold up by
`(tenant_id, hold_key)` only — the current time and `hold_until` are never
consulted — returning `false` when no row exists and otherwise deleting the
row and returning `true`.  (The Redis-side release and the cache
invalidation are external no-ops; `DatabaseError` on a failed delete is not
modelled.) -/
def release_booking_hold (db : DB) (tenant_id : Nat) (hold_key : Nat) :
    Except Err (DB × Bool) :=
  match db.holds.find? (fun h => decide (h.tenant_id = tenant_id ∧ h.hold_key = hold_key)) with
  | none => .ok (db, false)
  | some _ =>
    .ok ({ db with holds :=
      db.holds.eraseP (fun h => decide (h.tenant_id = tenant_id ∧ h.hold_key = hold_key)) },
      true)

/-- `BaseService._emit_event`: appends one `EventOutbox` row and commits it
(its own `db.session.commit()`, separate from any earlier commit).  The
constructor keyword arguments `event_type` / `retry_count` / `max_retries`
are embedded onto the columns `event_code` / `attempts` / `max_attempts`
(the model only exposes those names as read-only aliases of these columns);
`ready_at` takes its column default `utcnow`.  The written `status` is the
literal `"pending"`. -/
def _emit_event (db : DB) (now : Nat) (tenant_id fresh_event_id : Nat)
    (event_type : String) (payload : OutboxPayload) : DB :=
  { db with outbox := db.outbox ++ [{
      id := fresh_event_id
      tenant_id := tenant_id
      event_code := event_type
      payload := payload
      status := "pending"
      ready_at := now
      attempts := 0
      max_attempts := MAX_RETRY_ATTEMPTS }] }

/-- `BaseService._log_audit`: appends one `AuditLog` row and commits it. -/
def _log_audit (db : DB) (tenant_id : Nat) (table_name : String)
    (record_id : Nat) (operation : String) (user_id : Nat) : DB :=
  { db with audit_logs := db.audit_logs ++ [{
      tenant_id := tenant_id
      table_name := table_name
      record_id := record_id
      operation := operation
      user_id := user_id }] }

/-- `BookingService.get_booking`: lookup by `(tenant_id, id)`. -/
def get_booking (db : DB) (tenant_id booking_id : Nat) : Option Booking :=
  db.bookings.find? (fun b => decide (b.tenant_id = tenant_id ∧ b.id = booking_id))

/-- The ORM flush of a mutated booking row: replace the row with that id. -/
def updateBooking (bookings : List Booking) (b2 : Booking) : List Booking :=
  bookings.map (fun b => if b.id = b2.id then b2 else b)

/-- The request payload of `BookingService.create_booking`.  The required
fields are typed as present (`_validate_required_fields` and the ISO
datetime parsing always succeed on the embedded, well-formed payload);
`customer` records whether a customer payload accompanies the request in
place of a `customer_id`. -/
structure BookingRequest where
  customer_id : Option Nat
  customer : Bool
  service_id : Nat
  resource_id : Nat
  start_at : Nat
  end_at : Nat
  client_generated_id : Option Nat
  attendee_count : Nat := 1
deriving DecidableEq, Repr

/-- `BookingService.create_booking`.  The result carries the list of
database snapshots committed by the call, in order: the creation path first
commits the booking row (`_safe_db_operation`) and only then, in a second
commit, the outbox row (`_emit_event`); the idempotent early-return path
commits nothing (beyond a customer created from an inline payload).
`fresh_booking_id` / `fresh_customer_id` / `fresh_client_id` /
`fresh_event_id` stand for the `uuid.uuid4()` draws. -/
def create_booking (db : DB) (now : Nat) (tenant_id : Nat) (req : BookingRequest)
    (fresh_booking_id fresh_customer_id fresh_client_id fresh_event_id : Nat) :
    Except Err (List DB × Booking) :=
  let customerStep : Except Err (DB × List DB × Nat) :=
    match req.customer_id with
    | some cid => .ok (db, [], cid)
    | none =>
      if req.customer then
        let db1 := { db with customers :=
          db.customers ++ [{ id := fresh_customer_id, tenant_id := tenant_id }] }
        .ok (db1, [db1], fresh_customer_id)
      else .error (.valueError "Missing required field: customer_id or customer data")
  match customerStep with
  | .error e => .error e
  | .ok (db1, trace1, customer_id) =>
    if req.start_at ≥ req.end_at then
      .error (.validationError "Start time must be before end time")
    else
      match db1.services.find? (fun s =>
          decide (s.tenant_id = tenant_id ∧ s.id = req.service_id ∧ s.deleted = false)) with
      | none => .error (.valueError "Service not found")
      | some service =>
        let service_snapshot : ServiceSnapshot :=
          { service_id := service.id, name := service.name,
            duration_min := service.duration_min, price_cents := service.price_cents,
            category := service.category }
        let idempotent : Option Booking :=
          match req.client_generated_id with
          | some cgid => db1.bookings.find? (fun b =>
              decide (b.tenant_id = tenant_id ∧ b.client_generated_id = cgid))
          | none => none
        match idempotent with
        | some existing => .ok (trace1, existing)
        | none =>
          if (db1.bookings.find? (fun b =>
              decide (b.tenant_id = tenant_id ∧ b.resource_id = req.resource_id ∧
                b.status ∈ [BookingStatus.confirmed, .checked_in] ∧
                b.start_at < req.end_at ∧ b.end_at > req.start_at))).isSome then
            .error (.valueError "Booking time conflicts with existing booking")
          else
            match is_time_available db1 now tenant_id req.resource_id req.start_at req.end_at with
            | .error e => .error e
            | .ok false => .error (.valueError "Selected time is not available")
            | .ok true =>
              let booking : Booking :=
                { id := fresh_booking_id, tenant_id := tenant_id,
                  customer_id := customer_id, resource_id := req.resource_id,
                  client_generated_id := (req.client_generated_id).getD fresh_client_id,
                  service_snapshot := service_snapshot,
                  start_at := req.start_at, end_at := req.end_at,
                  status := .pending, no_show_flag := false, canceled_at := none,
                  rescheduled_from := none, updated_at := none }
              let db2 := { db1 with bookings := db1.bookings ++ [booking] }
              let db3 := _emit_event db2 now tenant_id fresh_event_id
                "BOOKING_CREATED" { booking_id := some booking.id }
              .ok (trace1 ++ [db2, db3], booking)

/-- `BookingService.confirm_booking`: only `pending` bookings pass; on
success the status becomes `confirmed` and a `BOOKING_CONFIRMED` outbox row
is emitted (again in its own, later commit). -/
def confirm_booking (db : DB) (now : Nat) (tenant_id booking_id : Nat)
    (fresh_event_id : Nat) (require_payment : Bool) : Except Err (DB × Bool) :=
  match get_booking db tenant_id booking_id with
  | none => .ok (db, false)
  | some booking =>
    if booking.status ≠ .pending then
      .error (.valueError "Only pending bookings can be confirmed")
    else if require_payment then
      .error (.valueError "Payment required to confirm booking")
    else
      let booking2 := { booking with status := BookingStatus.confirmed, updated_at := some now }
      let db2 := { db with bookings := updateBooking db.bookings booking2 }
      .ok (_emit_event db2 now tenant_id fresh_event_id "BOOKING_CONFIRMED"
        { booking_id := some booking.id }, true)

/-- `BookingService.cancel_booking`: rejects only the statuses `canceled`
and `completed`; any other booking (including `no_show` and `failed`) is
moved to `canceled` with `canceled_at` set, followed by an audit row. -/
def cancel_booking (db : DB) (now : Nat) (tenant_id booking_id cancelled_by : Nat) :
    Except Err (DB × Option Booking) :=
  match get_booking db tenant_id booking_id with
  | none => .ok (db, none)
  | some booking =>
    if booking.status ∈ [BookingStatus.canceled, .completed] then
      .error (.valueError "Cannot cancel booking in current status")
    else
      let booking2 := { booking with
        status := BookingStatus.canceled
        canceled_at := some now
        updated_at := some now }
      let db2 := { db with bookings := updateBooking db.bookings booking2 }
      .ok (_log_audit db2 tenant_id "booking" booking.id "UPDATE" cancelled_by, some booking2)

/-- `BookingService.reschedule_booking`: only `confirmed` / `checked_in`
bookings pass; the new interval is validated and then checked through
`is_time_available` — with no exclusion of the booking being rescheduled. -/
def reschedule_booking (db : DB) (now : Nat) (tenant_id booking_id : Nat)
    (new_start_at new_end_at : Nat) : Except Err (DB × Option Booking) :=
  match get_booking db tenant_id booking_id with
  | none => .ok (db, none)
  | some booking =>
    if booking.status ∉ [BookingStatus.confirmed, .checked_in] then
      .error (.valueError "Only confirmed bookings can be rescheduled")
    else if new_start_at ≥ new_end_at then
      .error (.validationError "Start time must be before end time")
    else
      match is_time_available db now tenant_id booking.resource_id new_start_at new_end_at with
      | .error e => .error e
      | .ok false => .error (.valueError "New time slot is not available")
      | .ok true =>
        let booking2 := { booking with
          start_at := new_start_at
          end_at := new_end_at
          rescheduled_from := some booking.id
          updated_at := some now }
        .ok ({ db with bookings := updateBooking db.bookings booking2 }, some booking2)

/-- `BookingService.mark_no_show`: only `confirmed` / `checked_in` bookings
pass; on success the status becomes `no_show` and the flag is set. -/
def mark_no_show (db : DB) (now : Nat) (tenant_id booking_id : Nat) :
    Except Err (DB × Option Booking) :=
  match get_booking db tenant_id booking_id with
  | none => .ok (db, none)
  | some booking =>
    if booking.status ∉ [BookingStatus.confirmed, .checked_in] then
      .error (.valueError "Only confirmed bookings can be marked as no-show")
    else
      let booking2 := { booking with
        status := BookingStatus.no_show
        no_show_flag := true
        updated_at := some now }
      .ok ({ db with bookings := updateBooking db.bookings booking2 }, some booking2)

/-- `code.startswith(p)` (Python), embedded character-wise. -/
def strStartsWith (code p : String) : Bool := p.toList.isPrefixOf code.toList

/-- `outbox_worker._send_email_via_provider`: fails iff the payload carries
`force_fail=true`. -/
def _send_email_via_provider (event : EventOutbox) : Bool := !event.payload.force_fail

/-- `outbox_worker._post_webhook`. -/
def _post_webhook (event : EventOutbox) : Bool := !event.payload.force_fail

/-- `outbox_worker._record_analytics_event`. -/
def _record_analytics_event (event : EventOutbox) : Bool := !event.payload.force_fail

/-- `outbox_worker._process_single_event`: dispatch by event-code prefix;
unknown codes succeed by default. -/
def _process_single_event (event : EventOutbox) : Bool :=
  if strStartsWith event.event_code "NOTIFY_" then _send_email_via_provider event
  else if strStartsWith event.event_code "WEBHOOK_" then _post_webhook event
  else if strStartsWith event.event_code "ANALYTICS_" then _record_analytics_event event
  else true

/-- The selection predicate of the worker's query:
`status = 'ready' AND attempts < max_attempts AND ready_at <= now`. -/
def outboxReadyPred (now : Nat) (e : EventOutbox) : Bool :=
  decide (e.status = "ready" ∧ e.attempts < e.max_attempts ∧ e.ready_at ≤ now)

/-- `ORDER BY ready_at ASC` as a total preorder on outbox rows. -/
def outboxLE (a b : EventOutbox) : Prop := a.ready_at ≤ b.ready_at

instance : DecidableRel outboxLE :=
  fun a b => inferInstanceAs (Decidable (a.ready_at ≤ b.ready_at))

instance : IsTotal EventOutbox outboxLE :=
  ⟨fun a b => Nat.le_total a.ready_at b.ready_at⟩

instance : IsTrans EventOutbox outboxLE :=
  ⟨fun _ _ _ h1 h2 => Nat.le_trans h1 h2⟩

/-- The worker's batch query: filter on `outboxReadyPred`, order by
`ready_at` ascending (stable sort), take at most `batch_limit` rows. -/
def selectReadyEvents (events : List EventOutbox) (now : Nat) (batch_limit : Nat) :
    List EventOutbox :=
  (((events.filter (outboxReadyPred now)).insertionSort outboxLE).take batch_limit)

/-- The per-event body of `process_ready_outbox_events`: on handler success
mark delivered; on handler failure increment `attempts`, and either fail the
event terminally (`attempts >= (max_attempts or 3)`) or push `ready_at`
sixty seconds out, leaving `status` untouched.  The handler functions are
total, so the defensive `except` arm of the loop is unreachable. -/
def processOutboxEvent (now : Nat) (event : EventOutbox) : EventOutbox :=
  if _process_single_event event then
    { event with status := "delivered", delivered_at := some now }
  else
    let attempts2 := event.attempts + 1
    let maxA := if event.max_attempts = 0 then 3 else event.max_attempts
    if attempts2 ≥ maxA then
      { event with
        attempts := attempts2
        last_attempt_at := some now
        status := "failed"
        failed_at := some now }
    else
      { event with
        attempts := attempts2
        last_attempt_at := some now
        ready_at := now + 60 }

/-- `outbox_worker.process_ready_outbox_events`: select a batch, process
each selected row (each committed individually), leave every other row
untouched, and return the processed count — which counts every selected
event whose handling did not raise, i.e. every selected event. -/
def process_ready_outbox_events (events : List EventOutbox) (now : Nat)
    (batch_limit : Nat) : List EventOutbox × Nat :=
  let selected := selectReadyEvents events now batch_limit
  (events.map (fun e =>
      if selected.any (fun s => decide (s.id = e.id)) then processOutboxEvent now e else e),
    selected.length)

/-- The final committed database of a call, given its commit trace. -/
def finalState (db : DB) (trace : List DB) : DB := trace.getLast?.getD db

/-- An empty database. -/
def emptyDB : DB :=
  { resources := [], customers := [], services := [], bookings := [], holds := [],
    staff_profiles := [], schedules := [], outbox := [], audit_logs := [] }

/-- A service offered by tenant 0, used by the concrete scenarios. -/
def demoService : Service :=
  { id := 5, tenant_id := 0, name := "Cut", duration_min := 60, price_cents := 5000,
    category := "hair", deleted := false }

/-- The active staff profile behind resource 0 of tenant 0. -/
def demoStaffProfile : StaffProfile :=
  { id := 1, tenant_id := 0, resource_id := 0, is_active := true }

/-- An open-ended regular schedule with default business hours. -/
def demoSchedule : WorkSchedule :=
  { tenant_id := 0, staff_profile_id := 1, schedule_type := .regular, start_date := 0,
    end_date := none, work_start_hour := none, work_end_hour := none,
    is_time_off := false, overrides_regular := false }

/-- An open-ended time-off schedule for the same staff profile. -/
def demoTimeOffSchedule : WorkSchedule :=
  { tenant_id := 0, staff_profile_id := 1, schedule_type := .time_off, start_date := 0,
    end_date := none, work_start_hour := none, work_end_hour := none,
    is_time_off := true, overrides_regular := false }

/-- A database in which `create_booking` succeeds: tenant 0 with one
resource, one customer, one service, an active staff profile and a regular
schedule. -/
def demoDB : DB :=
  { resources := [{ id := 0, tenant_id := 0 }]
    customers := [{ id := 7, tenant_id := 0 }]
    services := [demoService]
    bookings := []
    holds := []
    staff_profiles := [demoStaffProfile]
    schedules := [demoSchedule]
    outbox := []
    audit_logs := [] }

/-- A booking request for `[10:00, 11:00)` of day 0 carrying an idempotency
token. -/
def demoRequest : BookingRequest :=
  { customer_id := some 7, customer := false, service_id := 5, resource_id := 0,
    start_at := 36000, end_at := 39600, client_generated_id := some 42 }

/-- A confirmed booking of resource 0 for `[10:00, 11:00)` of day 0. -/
def demoConfirmedBooking : Booking :=
  { id := 1, tenant_id := 0, customer_id := 7, resource_id := 0, client_generated_id := 42,
    service_snapshot := { service_id := 5, name := "Cut", duration_min := 60,
                          price_cents := 5000, category := "hair" },
    start_at := 36000, end_at := 39600, status := .confirmed, no_show_flag := false,
    canceled_at := none, rescheduled_from := none, updated_at := none }

/-- `demoDB` with `demoConfirmedBooking` persisted. -/
def rescheduleDB : DB := { demoDB with bookings := [demoConfirmedBooking] }

/-- A booking already marked as a no-show. -/
def noShowBooking : Booking :=
  { demoConfirmedBooking with id := 2, status := BookingStatus.no_show, no_show_flag := true }

/-- `demoDB` with a no-show booking persisted. -/
def noShowDB : DB := { demoDB with bookings := [noShowBooking] }

/-- A database holding only resource 0 of tenant 0 (no staff profile). -/
def resourceOnlyDB : DB := { emptyDB with resources := [{ id := 0, tenant_id := 0 }] }

/-- A far-from-expired hold on resource 0 for `[10:00, 11:00)` of day 0. -/
def activeHold : BookingHold :=
  { tenant_id := 0, resource_id := 0, service_id := 5, hold_key := 1,
    start_at := 36000, end_at := 39600, hold_until := 999999999 }

/-- `resourceOnlyDB` plus one active hold: the setting in which
`calculate_availability` still reports the held slot as available. -/
def heldSlotDB : DB := { resourceOnlyDB with holds := [activeHold] }

/-- A hold whose `hold_until` lies in the past of every scenario time. -/
def expiredHold : BookingHold :=
  { tenant_id := 0, resource_id := 0, service_id := 5, hold_key := 1,
    start_at := 36000, end_at := 39600, hold_until := 5 }

/-- A database whose only hold is long expired but not yet purged. -/
def expiredHoldDB : DB := { emptyDB with holds := [expiredHold] }

/-- `demoDB` with an additional time-off schedule covering every day next
to the regular schedule, and no bookings. -/
def timeOffPlusRegularDB : DB :=
  { demoDB with schedules := [demoSchedule, demoTimeOffSchedule] }

/-- `demoDB` whose only schedule is time off. -/
def timeOffOnlyDB : DB := { demoDB with schedules := [demoTimeOffSchedule] }

/-- A pending booking of resource 0 for `[10:00, 11:00)` of day 0. -/
def pendingBooking : Booking :=
  { demoConfirmedBooking with id := 3, status := BookingStatus.pending }

/-- `demoDB` with a pending booking persisted: the setting for checking
that schedule-generated slots are blocked by same-day bookings. -/
def pendingBookingDB : DB := { demoDB with bookings := [pendingBooking] }

/-- A ready outbox event whose payload forces its handler to fail. -/
def failingNotifyEvent : EventOutbox :=
  { id := 21, tenant_id := 0, event_code := "NOTIFY_BOOKING", payload := { force_fail := true },
    status := "ready", ready_at := 0, attempts := 2, max_attempts := 3 }

/-- A ready outbox event whose handler succeeds. -/
def okNotifyEvent : EventOutbox :=
  { id := 22, tenant_id := 0, event_code := "NOTIFY_BOOKING", payload := {},
    status := "ready", ready_at := 50, attempts := 0, max_attempts := 3 }

/-- An outbox event that is not yet due. -/
def futureEvent : EventOutbox :=
  { id := 23, tenant_id := 0, event_code := "WEBHOOK_X", payload := {},
    status := "ready", ready_at := 5000, attempts := 0, max_attempts := 3 }

/-- A small outbox table for the worker scenarios. -/
def demoOutbox : List EventOutbox := [futureEvent, okNotifyEvent, failingNotifyEvent]

/-- The slot dict `[10:00, 11:00)` of day 0 as produced by the default
business-hours path (always available). -/
def heldSlot : Slot :=
  { start_at := 36000, end_at := 39600, available := true, schedule_type := none }

/-- The slot dict `[10:00, 11:00)` of day 0 as produced from the regular
schedule when the pending booking blocks it. -/
def pendingBlockedSlot : Slot :=
  { start_at := 36000, end_at := 39600, available := false,
    schedule_type := some .regular }

/-- The slot dict `[09:00, 10:00)` of day 0 as produced from the regular
schedule with nothing blocking it. -/
def regularDayZeroSlot : Slot :=
  { start_at := 32400, end_at := 36000, available := true,
    schedule_type := some .regular }

/-- A time-off schedule covering day 0 only. -/
def dayZeroTimeOffSchedule : WorkSchedule :=
  { demoTimeOffSchedule with end_date := some 0 }

/-- `demoDB` whose only schedule is a time-off schedule for day 0: day 0
yields no slots at all, while day 1 falls back to default business hours. -/
def timeOffDayZeroDB : DB := { demoDB with schedules := [dayZeroTimeOffSchedule] }

/-- The first default slot of day 1: `[09:00, 10:00)` at `86400 + 32400`. -/
def dayOneDefaultSlot : Slot :=
  { start_at := 118800, end_at := 122400, available := true, schedule_type := none }

/-- The result of the first `create_booking` call of the concrete scenario:
booking id 100, customer id fallback 101, client-id fallback 102, outbox
event id 103, at clock 0. -/
def demoFirstCreate : Except Err (List DB × Booking) :=
  create_booking demoDB 0 0 demoRequest 100 101 102 103

/-- The commit trace of `demoFirstCreate`. -/
def demoFirstTrace : List DB := (demoFirstCreate.toOption.map Prod.fst).getD []

/-- The booking returned by `demoFirstCreate`. -/
def demoFirstBooking : Booking :=
  (demoFirstCreate.toOption.map Prod.snd).getD demoConfirmedBooking

/-- The first committed snapshot of `demoFirstCreate` (the
`_safe_db_operation` commit holding the booking row). -/
def demoCommit1 : DB := (demoFirstTrace.get? 0).getD demoDB

/-- The second committed snapshot of `demoFirstCreate` (the `_emit_event`
commit adding the outbox row). -/
def demoCommit2 : DB := (demoFirstTrace.get? 1).getD demoDB

/-- The single outbox row committed by `demoFirstCreate`. -/
def demoCreatedEvent : EventOutbox :=
  (demoCommit2.outbox.get? 0).getD
    { id := 0, tenant_id := 0, event_code := "", payload := {},
      status := "", ready_at := 0, attempts := 0, max_attempts := 0 }

deriving instance DecidableEq for Except

/-! ## Shared lemmas about the embedded operations -/

theorem dateOf_combineDayHour (d h : Nat) (hh : h < 24) :
    dateOf (combineDayHour d h) = d := by
  show (d * 86400 + h * 3600) / 86400 = d
  omega

theorem mem_hourRange {h a b : Nat} (hmem : h ∈ hourRange a b) : a ≤ h ∧ h < b := by
  unfold hourRange at hmem
  obtain ⟨i, hi, rfl⟩ := List.mem_map.mp hmem
  have := List.mem_range.mp hi
  omega

theorem mem_get_default_day_slots {slot : Slot} {d : Nat}
    (h : slot ∈ _get_default_day_slots d) :
    ∃ hour, DEFAULT_BUSINESS_START_HOUR ≤ hour ∧ hour < DEFAULT_BUSINESS_END_HOUR ∧
      slot.start_at = combineDayHour d hour ∧ slot.end_at = slot.start_at + 3600 ∧
      slot.available = true ∧ slot.schedule_type = none := by
  unfold _get_default_day_slots at h
  obtain ⟨hour, hh, rfl⟩ := List.mem_map.mp h
  obtain ⟨h1, h2⟩ := mem_hourRange hh
  exact ⟨hour, h1, h2, rfl, rfl, rfl, rfl⟩

theorem mem_scheduleDaySlots {slot : Slot} {ws : WorkSchedule}
    {books : List Booking} {d : Nat} (h : slot ∈ _scheduleDaySlots ws books d) :
    ws.is_time_off = false ∧
    ∃ hour, hour < ws.work_end_hour.getD DEFAULT_BUSINESS_END_HOUR ∧
      slot.start_at = combineDayHour d hour ∧ slot.end_at = slot.start_at + 3600 ∧
      slot.schedule_type = some ws.schedule_type ∧
      slot.available =
        !(books.any (fun b => decide (b.start_at < slot.end_at ∧ b.end_at > slot.start_at))) := by
  unfold _scheduleDaySlots at h
  by_cases hto : ws.is_time_off
  · simp [hto] at h
  · simp only [hto, if_false] at h
    obtain ⟨hour, hh, rfl⟩ := List.mem_map.mp h
    obtain ⟨_, h2⟩ := mem_hourRange hh
    exact ⟨by simpa using hto, hour, h2, rfl, rfl, rfl, rfl⟩

theorem mem_generate_day_slots {slot : Slot} {d : Nat} {scheds : List WorkSchedule}
    {books : List Booking} (h : slot ∈ _generate_day_slots d scheds books)
    (hbound : ∀ ws ∈ scheds, ws.work_end_hour.getD DEFAULT_BUSINESS_END_HOUR ≤ 24) :
    dateOf slot.start_at = d ∧ slot.end_at = slot.start_at + 3600 ∧
      (slot.schedule_type.isSome = true →
        slot.available =
          !(books.any (fun b => decide (b.start_at < slot.end_at ∧ b.end_at > slot.start_at)))) := by
  unfold _generate_day_slots at h
  by_cases hne : scheds.isEmpty
  · simp only [hne, if_true] at h
    obtain ⟨hour, _, h2, h3, h4, h5, h6⟩ := mem_get_default_day_slots h
    have e17 : DEFAULT_BUSINESS_END_HOUR = 17 := rfl
    refine ⟨by rw [h3]; exact dateOf_combineDayHour d hour (by omega), h4, ?_⟩
    intro hs
    rw [h6] at hs
    simp at hs
  · simp only [hne, if_false] at h
    obtain ⟨ws, hws, hmem⟩ := List.mem_flatMap.mp h
    obtain ⟨_, hour, h2, h3, h4, _, h6⟩ := mem_scheduleDaySlots hmem
    have hb := hbound ws hws
    refine ⟨by rw [h3]; exact dateOf_combineDayHour d hour (by omega), h4, fun _ => h6⟩

theorem generate_day_slots_all_time_off {d : Nat} {scheds : List WorkSchedule}
    {books : List Booking} (hne : scheds ≠ [])
    (hto : ∀ ws ∈ scheds, ws.is_time_off = true) :
    _generate_day_slots d scheds books = [] := by
  unfold _generate_day_slots
  have hne2 : scheds.isEmpty = false := by
    cases scheds with
    | nil => exact absurd rfl hne
    | cons a l => rfl
  rw [if_neg (by simp [hne2])]
  rw [List.flatMap_eq_nil_iff]
  intro ws hws
  unfold _scheduleDaySlots
  simp [hto ws hws]

theorem mem_generate_availability_slots {slot : Slot} {s e : Nat}
    {scheds : List WorkSchedule} {books : List Booking}
    (h : slot ∈ _generate_availability_slots s e scheds books)
    (hbound : ∀ ws ∈ scheds, ws.work_end_hour.getD DEFAULT_BUSINESS_END_HOUR ≤ 24) :
    ∃ d ∈ daysFromTo (dateOf s) (dateOf e),
      dateOf slot.start_at = d ∧ slot.end_at = slot.start_at + 3600 ∧
      (slot.schedule_type.isSome = true →
        slot.available =
          !((books.filter (fun b => decide (dateOf b.start_at = d))).any
            (fun b => decide (b.start_at < slot.end_at ∧ b.end_at > slot.start_at)))) := by
  unfold _generate_availability_slots at h
  obtain ⟨d, hd, hmem⟩ := List.mem_flatMap.mp h
  have hbound2 : ∀ ws ∈ scheds.filter (fun x => coversDay x d),
      ws.work_end_hour.getD DEFAULT_BUSINESS_END_HOUR ≤ 24 :=
    fun ws hws => hbound ws (List.mem_of_mem_filter hws)
  obtain ⟨h1, h2, h3⟩ := mem_generate_day_slots hmem hbound2
  exact ⟨d, hd, h1, h2, h3⟩

/-- `is_time_available` answers `false` whenever some persisted booking of
the resource, in a blocking status, overlaps the requested interval. -/
theorem is_time_available_blocked {db : DB} {now : Nat} {tenant resource : Nat}
    {s e : Nat} {b : Booking} (hse : s < e) (hb : b ∈ db.bookings)
    (hbt : b.tenant_id = tenant) (hbr : b.resource_id = resource)
    (hbs : b.status ∈ bookingBlockingStatuses)
    (ho1 : b.start_at < e) (ho2 : b.end_at > s) :
    is_time_available db now tenant resource s e = .ok false := by
  unfold is_time_available
  have h1 : ¬ (s ≥ e) := Nat.not_le.mpr hse
  have hfind : (db.bookings.find? (fun b =>
      decide (b.tenant_id = tenant ∧ b.resource_id = resource ∧
        b.status ∈ bookingBlockingStatuses ∧
        b.start_at < e ∧ b.end_at > s))).isSome = true := by
    rw [List.find?_isSome]
    exact ⟨b, hb, by simp [hbt, hbr, hbs, ho1, ho2]⟩
  rw [if_neg h1, if_pos hfind]

/-! ## C6 -/

/-- C6, counterexample: the only hold in `expiredHoldDB` expired at time 5,
far in the past of any scenario clock, yet `release_booking_hold` deletes
it and returns `true` — the claim says an already-expired hold yields
`false`. -/
theorem c6_counterexample :
    expiredHold.hold_until = 5 ∧
    release_booking_hold expiredHoldDB 0 1 = .ok ({ expiredHoldDB with holds := [] }, true) := by
  constructor
  · rfl
  · decide

/-- C6, amended: `release_booking_hold` never raises and returns a boolean,
but the boolean only reports row existence: it is `false` exactly when no
hold row with the key exists for the tenant, and a hold whose `hold_until`
has already passed (but whose row is still present) is deleted with result
`true` — expiry is never consulted. -/
theorem c6_release_semantics (db : DB) (tenant hold_key now : Nat) :
    ((∀ h ∈ db.holds, ¬(h.tenant_id = tenant ∧ h.hold_key = hold_key)) →
      release_booking_hold db tenant hold_key = .ok (db, false)) ∧
    (∀ h ∈ db.holds, h.tenant_id = tenant → h.hold_key = hold_key → h.hold_until ≤ now →
      ∃ db2, release_booking_hold db tenant hold_key = .ok (db2, true)) := by
  constructor
  · intro hnone
    unfold release_booking_hold
    rw [List.find?_eq_none.mpr (fun x hx => by simpa using hnone x hx)]
  · intro h hmem ht hk _
    unfold release_booking_hold
    have : (db.holds.find? (fun h =>
        decide (h.tenant_id = tenant ∧ h.hold_key = hold_key))).isSome = true := by
      rw [List.find?_isSome]
      exact ⟨h, hmem, by simp [ht, hk]⟩
    obtain ⟨h2, hh2⟩ := Option.isSome_iff_exists.mp this
    rw [hh2]
    exact ⟨_, rfl⟩

/-- C6, witness: instantiating the amended theorem at `expiredHoldDB`,
whose sole hold is long expired, releases it with result `true`. -/
theorem c6_witness :
    (release_booking_hold expiredHoldDB 0 1).toOption.map Prod.snd = some true := by
  obtain ⟨db2, he⟩ := (c6_release_semantics expiredHoldDB 0 1 10).2 expiredHold
    (by decide) (by decide) (by decide) (by decide)
  rw [he]
  rfl

/-! ## C4 -/

/-- C4, counterexample: `noShowDB` holds booking 2 in the terminal status
`no_show`, yet `cancel_booking` accepts it and moves it to `canceled` — the
claim says no transition out of `no_show` is ever applied. -/
theorem c4_counterexample :
    noShowBooking.status = BookingStatus.no_show ∧
    (cancel_booking noShowDB 1000 0 2 9).toOption.map
      (fun r => r.2.map Booking.status) = some (some BookingStatus.canceled) := by
  exact ⟨rfl, by decide⟩

/-- C4, amended: for a booking in a terminal status, `confirm_booking`,
`mark_no_show` and `reschedule_booking` reject with a business-logic error,
and `cancel_booking` rejects exactly the statuses `canceled` and
`completed`; a `no_show` or `failed` booking is instead moved to `canceled`
by `cancel_booking`. -/
theorem c4_terminal_status_guards (db : DB) (now ns ne : Nat)
    (tenant booking_id user fresh_event_id : Nat) (require_payment : Bool) (b : Booking)
    (hfind : get_booking db tenant booking_id = some b)
    (hterm : b.status ∈ [BookingStatus.completed, .canceled, .no_show, .failed]) :
    confirm_booking db now tenant booking_id fresh_event_id require_payment =
      .error (.valueError "Only pending bookings can be confirmed") ∧
    mark_no_show db now tenant booking_id =
      .error (.valueError "Only confirmed bookings can be marked as no-show") ∧
    reschedule_booking db now tenant booking_id ns ne =
      .error (.valueError "Only confirmed bookings can be rescheduled") ∧
    (b.status ∈ [BookingStatus.canceled, .completed] →
      cancel_booking db now tenant booking_id user =
        .error (.valueError "Cannot cancel booking in current status")) ∧
    (b.status ∈ [BookingStatus.no_show, .failed] →
      ∃ db2 b2, cancel_booking db now tenant booking_id user = .ok (db2, some b2) ∧
        b2.status = BookingStatus.canceled) := by
  have hterm2 : b.status = .completed ∨ b.status = .canceled ∨
      b.status = .no_show ∨ b.status = .failed := by simpa using hterm
  have hnp : b.status ≠ .pending := by
    rcases hterm2 with h|h|h|h <;> simp [h]
  have hncc : b.status ∉ [BookingStatus.confirmed, .checked_in] := by
    rcases hterm2 with h|h|h|h <;> simp [h]
  refine ⟨?_, ?_, ?_, ?_, ?_⟩
  · simp only [confirm_booking, hfind]
    rw [if_pos hnp]
  · simp only [mark_no_show, hfind]
    rw [if_pos hncc]
  · simp only [reschedule_booking, hfind]
    rw [if_pos hncc]
  · intro h2
    simp only [cancel_booking, hfind]
    rw [if_pos h2]
  · intro h2
    have h3 : b.status ∉ [BookingStatus.canceled, .completed] := by
      rcases (by simpa using h2 : b.status = .no_show ∨ b.status = .failed) with h|h <;>
        simp [h]
    simp only [cancel_booking, hfind]
    rw [if_neg h3]
    exact ⟨_, _, rfl, rfl⟩

/-- C4, witness: instantiating the amended theorem on the `no_show` booking
of `noShowDB`: the three guarded operations reject it, and cancellation
moves it to `canceled`. -/
theorem c4_witness :
    confirm_booking noShowDB 0 0 2 50 false =
      .error (.valueError "Only pending bookings can be confirmed") ∧
    (cancel_booking noShowDB 0 0 2 9).isOk = true := by
  have h := c4_terminal_status_guards noShowDB 0 0 0 0 2 9 50 false noShowBooking
    (by decide) (by decide)
  obtain ⟨db2, b2, he, _⟩ := h.2.2.2.2 (by decide)
  exact ⟨h.1, by rw [he]; rfl⟩

/-! ## C3 -/

/-- C3, counterexample: booking 1 of `rescheduleDB` is `confirmed` on
`[10:00, 11:00)` of day 0, the resource has no other booking and no hold,
yet rescheduling it to its own unchanged interval is rejected as
unavailable — the claim says the no-op move succeeds because the booking's
own interval is excluded from the conflict check. -/
theorem c3_counterexample :
    rescheduleDB.bookings = [demoConfirmedBooking] ∧ rescheduleDB.holds = [] ∧
    reschedule_booking rescheduleDB 0 0 1 36000 39600 =
      .error (.valueError "New time slot is not available") := by
  refine ⟨rfl, rfl, ?_⟩
  decide

/-- C3, amended: the conflict check of `reschedule_booking` does not
exclude the booking being rescheduled: whenever the requested interval
overlaps the booking's own current interval, the reschedule is rejected
with "New time slot is not available" — in particular a no-op move of a
confirmed booking is always rejected. -/
theorem c3_self_conflict (db : DB) (now : Nat) (tenant booking_id : Nat)
    (ns ne : Nat) (b : Booking)
    (hfind : get_booking db tenant booking_id = some b)
    (hstat : b.status ∈ [BookingStatus.confirmed, .checked_in])
    (hlt : ns < ne) (ho1 : b.start_at < ne) (ho2 : b.end_at > ns) :
    reschedule_booking db now tenant booking_id ns ne =
      .error (.valueError "New time slot is not available") := by
  have hb : b ∈ db.bookings := List.mem_of_find?_eq_some hfind
  have hpred := List.find?_some hfind
  have hbt : b.tenant_id = tenant := by
    simp only [decide_eq_true_eq] at hpred
    exact hpred.1
  have hbs : b.status ∈ bookingBlockingStatuses := by
    rcases (by simpa using hstat : b.status = .confirmed ∨ b.status = .checked_in) with h|h <;>
      simp [bookingBlockingStatuses, h]
  simp only [reschedule_booking, hfind]
  rw [if_neg (not_not_intro hstat), if_neg (Nat.not_le.mpr hlt),
    is_time_available_blocked hlt hb hbt rfl hbs ho1 ho2]

/-- C3, witness: applying the amended theorem to the confirmed booking of
`rescheduleDB` and its own interval. -/
theorem c3_witness :
    reschedule_booking rescheduleDB 5 0 1 36000 39600 =
      .error (.valueError "New time slot is not available") :=
  c3_self_conflict rescheduleDB 5 0 1 36000 39600 demoConfirmedBooking
    (by decide) (by decide) (by decide) (by decide) (by decide)

/-! ## C9 -/

/-- C9, counterexample: with `end < start` on the same calendar day
(`36000` is 10:00, `32400` is 09:00 of day 0), `calculate_availability`
raises no validation error and silently returns the full day of default
slots — the claim requires a validation error and no slots. -/
theorem c9_counterexample :
    (32400 : Nat) < 36000 ∧
    calculate_availability resourceOnlyDB 0 0 36000 32400 =
      .ok (_get_default_day_slots 0) ∧
    (_get_default_day_slots 0).length = 8 := by
  refine ⟨by norm_num, by decide, by decide⟩

/-- C9, amended: `calculate_availability` performs no range validation at
all; it iterates the calendar days from `start.date()` through
`end.date()`, so a malformed range yields a silent `.ok` — the empty slot
list whenever the end date precedes the start date (and a full final day
when the reversed range stays within one date). -/
theorem c9_no_range_validation (db : DB) (tenant resource : Nat) (s e : Nat)
    (r : Resource)
    (hres : db.resources.find?
      (fun x => decide (x.tenant_id = tenant ∧ x.id = resource)) = some r)
    (hrev : dateOf e < dateOf s) :
    calculate_availability db tenant resource s e = .ok [] := by
  have hdays : daysFromTo (dateOf s) (dateOf e) = [] := by
    unfold daysFromTo
    have h0 : dateOf e + 1 - dateOf s = 0 := by omega
    rw [h0]
    rfl
  cases hsp : db.staff_profiles.find?
      (fun p => decide (p.tenant_id = tenant ∧ p.resource_id = resource)) with
  | none =>
    simp only [calculate_availability, hres, hsp, _get_default_availability, hdays,
      List.flatMap_nil]
  | some sp =>
    simp only [calculate_availability, hres, hsp, _generate_availability_slots, hdays,
      List.flatMap_nil]

/-- C9, witness: a range ending two days before it starts returns `.ok []`
without any error. -/
theorem c9_witness : calculate_availability resourceOnlyDB 0 0 200000 100 = .ok [] :=
  c9_no_range_validation resourceOnlyDB 0 0 200000 100 { id := 0, tenant_id := 0 }
    (by decide) (by decide)

/-! ## C2 -/

/-- C2, counterexample: `heldSlotDB` carries a non-expired hold (valid
until 999999999) on `[10:00, 11:00)` of day 0 for resource 0, yet
`calculate_availability` returns exactly that slot with `available = true`:
the function never queries the `BookingHold` table.  The claim requires
every candidate slot overlapping a non-expired hold to be unavailable. -/
theorem c2_counterexample :
    activeHold.start_at < heldSlot.end_at ∧ heldSlot.start_at < activeHold.end_at ∧
    activeHold.hold_until = 999999999 ∧ heldSlotDB.holds = [activeHold] ∧
    heldSlot ∈ (calculate_availability heldSlotDB 0 0 32400 61200).toOption.getD [] ∧
    heldSlot.available = true := by
  refine ⟨by decide, by decide, rfl, rfl, by decide, rfl⟩

/-- C2, amended: holds are never consulted by `calculate_availability`, and
only slots generated from a work schedule carry a conflict check at all
(default-hours slots are returned available unconditionally); for a
schedule-generated slot the check covers exactly the bookings in status
`pending` / `confirmed` / `checked_in` for the resource that intersect the
queried range and start on the slot's calendar day: any such booking
overlapping the slot forces `available = false`.  (The work-hours bound
`end_hour ≤ 24` keeps every generated slot inside its generating day.) -/
theorem c2_schedule_slot_blocking (db : DB) (tenant resource s e : Nat)
    (slots : List Slot)
    (hcalc : calculate_availability db tenant resource s e = .ok slots)
    (hbound : ∀ ws ∈ db.schedules, ws.work_end_hour.getD DEFAULT_BUSINESS_END_HOUR ≤ 24)
    (slot : Slot) (hslot : slot ∈ slots) (hstype : slot.schedule_type.isSome = true)
    (b : Booking) (hb : b ∈ db.bookings)
    (hbt : b.tenant_id = tenant) (hbr : b.resource_id = resource)
    (hbs : b.status ∈ bookingBlockingStatuses)
    (hq1 : b.start_at < e) (hq2 : b.end_at > s)
    (hday : dateOf b.start_at = dateOf slot.start_at)
    (hov1 : b.start_at < slot.end_at) (hov2 : b.end_at > slot.start_at) :
    slot.available = false := by
  cases hres : db.resources.find?
      (fun x => decide (x.tenant_id = tenant ∧ x.id = resource)) with
  | none =>
    simp only [calculate_availability, hres] at hcalc
    exact Except.noConfusion hcalc
  | some r =>
    cases hsp : db.staff_profiles.find?
        (fun p => decide (p.tenant_id = tenant ∧ p.resource_id = resource)) with
    | none =>
      simp only [calculate_availability, hres, hsp, Except.ok.injEq] at hcalc
      subst hcalc
      obtain ⟨d, _, hmem⟩ := List.mem_flatMap.mp hslot
      obtain ⟨_, _, _, _, _, _, h6⟩ := mem_get_default_day_slots hmem
      rw [h6] at hstype
      simp at hstype
    | some sp =>
      simp only [calculate_availability, hres, hsp, Except.ok.injEq] at hcalc
      subst hcalc
      have hbound2 : ∀ ws ∈ db.schedules.filter (fun s2 =>
          decide (s2.tenant_id = tenant ∧ s2.staff_profile_id = sp.id) &&
          scheduleInWindow s2 (dateOf s) (dateOf e)),
          ws.work_end_hour.getD DEFAULT_BUSINESS_END_HOUR ≤ 24 :=
        fun ws hws => hbound ws (List.mem_of_mem_filter hws)
      obtain ⟨d, _, hdate, hend, havl⟩ := mem_generate_availability_slots hslot hbound2
      have hbq : b ∈ db.bookings.filter (fun b2 =>
          decide (b2.tenant_id = tenant ∧ b2.resource_id = resource ∧
            b2.status ∈ bookingBlockingStatuses ∧
            b2.start_at < e ∧ b2.end_at > s)) :=
        List.mem_filter.mpr ⟨hb, by simp [hbt, hbr, hbs, hq1, hq2]⟩
      have hbd : b ∈ (db.bookings.filter (fun b2 =>
          decide (b2.tenant_id = tenant ∧ b2.resource_id = resource ∧
            b2.status ∈ bookingBlockingStatuses ∧
            b2.start_at < e ∧ b2.end_at > s))).filter
          (fun b2 => decide (dateOf b2.start_at = d)) :=
        List.mem_filter.mpr ⟨hbq, by simp [hday, hdate]⟩
      have hany : ((db.bookings.filter (fun b2 =>
          decide (b2.tenant_id = tenant ∧ b2.resource_id = resource ∧
            b2.status ∈ bookingBlockingStatuses ∧
            b2.start_at < e ∧ b2.end_at > s))).filter
          (fun b2 => decide (dateOf b2.start_at = d))).any
          (fun b2 => decide (b2.start_at < slot.end_at ∧ b2.end_at > slot.start_at)) = true :=
        List.any_eq_true.mpr ⟨b, hbd, by simp [hov1, hov2]⟩
      rw [havl hstype, hany]
      rfl

/-- C2, witness: in `pendingBookingDB` the pending booking on
`[10:00, 11:00)` blocks the schedule-generated slot for that hour, which
`calculate_availability` indeed returns with `available = false`. -/
theorem c2_witness : pendingBlockedSlot.available = false :=
  c2_schedule_slot_blocking pendingBookingDB 0 0 32400 61200
    ((calculate_availability pendingBookingDB 0 0 32400 61200).toOption.getD [])
    (by decide) (by decide) pendingBlockedSlot (by decide) (by decide)
    pendingBooking (by decide) (by decide) (by decide) (by decide) (by decide)
    (by decide) (by decide) (by decide) (by decide)

/-! ## C7 -/

/-- C7, counterexample: in `timeOffPlusRegularDB` a time-off schedule and a
regular schedule both cover day 0; `_generate_day_slots` merely skips the
time-off schedule, so the regular schedule still yields `[09:00, 10:00)` of
day 0 with `available = true` — the claim says a covering time-off schedule
leaves the whole day without available slots. -/
theorem c7_counterexample :
    demoTimeOffSchedule.is_time_off = true ∧
    coversDay demoTimeOffSchedule 0 = true ∧
    regularDayZeroSlot ∈
      (calculate_availability timeOffPlusRegularDB 0 0 32400 61200).toOption.getD [] ∧
    regularDayZeroSlot.available = true ∧ dateOf regularDayZeroSlot.start_at = 0 := by
  refine ⟨rfl, rfl, by decide, rfl, rfl⟩

/-- C7, amended: a time-off schedule contributes no slots of its own but
does not suppress other schedules covering the same day; when instead every
schedule covering a day (at least one) is time off, the day yields no slots
at all.  Formally: if some schedule of the staff profile behind the
resource passes the query window and covers day `d`, and all such schedules
are time off, then no returned slot falls on day `d`. -/
theorem c7_all_time_off_day_empty (db : DB) (tenant resource s e : Nat)
    (slots : List Slot) (sp : StaffProfile) (d : Nat)
    (hcalc : calculate_availability db tenant resource s e = .ok slots)
    (hsp : db.staff_profiles.find?
      (fun p => decide (p.tenant_id = tenant ∧ p.resource_id = resource)) = some sp)
    (hbound : ∀ ws ∈ db.schedules, ws.work_end_hour.getD DEFAULT_BUSINESS_END_HOUR ≤ 24)
    (hex : ∃ ws ∈ db.schedules,
      (decide (ws.tenant_id = tenant ∧ ws.staff_profile_id = sp.id) &&
        scheduleInWindow ws (dateOf s) (dateOf e)) = true ∧ coversDay ws d = true)
    (hall : ∀ ws ∈ db.schedules,
      (decide (ws.tenant_id = tenant ∧ ws.staff_profile_id = sp.id) &&
        scheduleInWindow ws (dateOf s) (dateOf e)) = true → coversDay ws d = true →
      ws.is_time_off = true)
    (slot : Slot) (hslot : slot ∈ slots) :
    dateOf slot.start_at ≠ d := by
  cases hres : db.resources.find?
      (fun x => decide (x.tenant_id = tenant ∧ x.id = resource)) with
  | none =>
    simp only [calculate_availability, hres] at hcalc
    exact Except.noConfusion hcalc
  | some r =>
    simp only [calculate_availability, hres, hsp, Except.ok.injEq] at hcalc
    subst hcalc
    obtain ⟨d2, _, hmem⟩ := List.mem_flatMap.mp hslot
    by_cases hdd : d2 = d
    · subst hdd
      have hne : (db.schedules.filter (fun s2 =>
          decide (s2.tenant_id = tenant ∧ s2.staff_profile_id = sp.id) &&
          scheduleInWindow s2 (dateOf s) (dateOf e))).filter
          (fun s2 => coversDay s2 d2) ≠ [] := by
        obtain ⟨ws, hws, hq, hc⟩ := hex
        have hin : ws ∈ (db.schedules.filter (fun s2 =>
            decide (s2.tenant_id = tenant ∧ s2.staff_profile_id = sp.id) &&
            scheduleInWindow s2 (dateOf s) (dateOf e))).filter
            (fun s2 => coversDay s2 d2) :=
          List.mem_filter.mpr ⟨List.mem_filter.mpr ⟨hws, hq⟩, hc⟩
        intro hnil
        rw [hnil] at hin
        exact absurd hin (List.not_mem_nil ws)
      have hto : ∀ ws ∈ (db.schedules.filter (fun s2 =>
          decide (s2.tenant_id = tenant ∧ s2.staff_profile_id = sp.id) &&
          scheduleInWindow s2 (dateOf s) (dateOf e))).filter
          (fun s2 => coversDay s2 d2), ws.is_time_off = true := by
        intro ws hws
        have h1 := List.mem_filter.mp hws
        have h2 := List.mem_filter.mp h1.1
        exact hall ws h2.1 h2.2 h1.2
      rw [generate_day_slots_all_time_off hne hto] at hmem
      exact absurd hmem (List.not_mem_nil slot)
    · have hbound2 : ∀ ws ∈ (db.schedules.filter (fun s2 =>
          decide (s2.tenant_id = tenant ∧ s2.staff_profile_id = sp.id) &&
          scheduleInWindow s2 (dateOf s) (dateOf e))).filter
          (fun s2 => coversDay s2 d2),
          ws.work_end_hour.getD DEFAULT_BUSINESS_END_HOUR ≤ 24 :=
        fun ws hws =>
          hbound ws (List.mem_of_mem_filter (List.mem_of_mem_filter hws))
      obtain ⟨h1, _, _⟩ := mem_generate_day_slots hmem hbound2
      rw [h1]
      exact hdd

/-- C7, witness: in `timeOffDayZeroDB` the only schedule is time off for
day 0 alone; querying days 0 and 1 produces only day-1 default slots, so
the day-1 slot `[09:00, 10:00)` returned by the call does not fall on
day 0. -/
theorem c7_witness : dateOf dayOneDefaultSlot.start_at ≠ 0 :=
  c7_all_time_off_day_empty timeOffDayZeroDB 0 0 32400 147600
    ((calculate_availability timeOffDayZeroDB 0 0 32400 147600).toOption.getD [])
    demoStaffProfile 0 (by decide) (by decide) (by decide)
    ⟨dayZeroTimeOffSchedule, by decide, by decide, by decide⟩ (by decide)
    dayOneDefaultSlot (by decide)

/-! ## C5 -/

theorem finalState_nil (db : DB) : finalState db [] = db := rfl

theorem finalState_pair (db x y : DB) : finalState db [x, y] = y := rfl

/-- C5: idempotent create.  If a call to `create_booking` carrying an
idempotency token and an explicit customer id succeeds — whether it
persisted a new booking or returned an existing one — then repeating the
identical request against the resulting committed state returns the very
same booking, commits nothing (empty commit trace, hence no second booking
row), and this holds for any later clock and any fresh uuid draws. -/
theorem c5_idempotent_create (db : DB) (now now2 tenant : Nat)
    (req : BookingRequest) (cgid c : Nat)
    (h1 : req.client_generated_id = some cgid)
    (h2 : req.customer_id = some c)
    (f1 f2 f3 f4 g1 g2 g3 g4 : Nat) (tr : List DB) (b : Booking)
    (hok : create_booking db now tenant req f1 f2 f3 f4 = .ok (tr, b)) :
    create_booking (finalState db tr) now2 tenant req g1 g2 g3 g4 = .ok ([], b) := by
  simp only [create_booking, h2] at hok
  by_cases hlt : req.start_at ≥ req.end_at
  · rw [if_pos hlt] at hok
    exact Except.noConfusion hok
  · rw [if_neg hlt] at hok
    cases hserv : db.services.find? (fun s =>
        decide (s.tenant_id = tenant ∧ s.id = req.service_id ∧ s.deleted = false)) with
    | none =>
      rw [hserv] at hok
      exact Except.noConfusion hok
    | some service =>
      rw [hserv] at hok
      simp only [h1] at hok
      cases hfind : db.bookings.find? (fun b2 =>
          decide (b2.tenant_id = tenant ∧ b2.client_generated_id = cgid)) with
      | some existing =>
        rw [hfind] at hok
        simp only [Except.ok.injEq, Prod.mk.injEq] at hok
        obtain ⟨htr, hb⟩ := hok
        subst htr
        subst hb
        rw [finalState_nil]
        simp only [create_booking, h2]
        rw [if_neg hlt, hserv]
        simp only [h1]
        rw [hfind]
      | none =>
        rw [hfind] at hok
        by_cases hov : (db.bookings.find? (fun b2 =>
            decide (b2.tenant_id = tenant ∧ b2.resource_id = req.resource_id ∧
              b2.status ∈ [BookingStatus.confirmed, .checked_in] ∧
              b2.start_at < req.end_at ∧ b2.end_at > req.start_at))).isSome
        · rw [if_pos hov] at hok
          exact Except.noConfusion hok
        · rw [if_neg hov] at hok
          cases hav : is_time_available db now tenant req.resource_id
              req.start_at req.end_at with
          | error e2 =>
            rw [hav] at hok
            exact Except.noConfusion hok
          | ok bb =>
            rw [hav] at hok
            cases bb with
            | false => exact Except.noConfusion hok
            | true =>
              simp only [List.nil_append, Except.ok.injEq, Prod.mk.injEq] at hok
              obtain ⟨htr, hb⟩ := hok
              subst htr
              subst hb
              rw [finalState_pair]
              simp only [create_booking, _emit_event, h2]
              rw [if_neg hlt, hserv]
              simp only [h1, Option.getD_some]
              rw [List.find?_append, hfind]
              simp [List.find?_cons]

/-- C5, witness: the concrete first call on `demoDB` commits booking 100;
replaying the identical request (any clock, any fresh ids) against the
final committed state returns the same booking with an empty commit
trace. -/
theorem c5_witness :
    create_booking (finalState demoDB demoFirstTrace) 77 0 demoRequest 200 201 202 203 =
      .ok ([], demoFirstBooking) :=
  c5_idempotent_create demoDB 0 77 0 demoRequest 42 7 (by decide) (by decide)
    100 101 102 103 200 201 202 203 demoFirstTrace demoFirstBooking (by decide)

/-! ## C1 -/

/-- C1 (code bug): the `BOOKING_CREATED` outbox row is NOT written in the
same transaction as the booking row.  On the concrete successful creation,
the call commits twice: the first committed snapshot already contains the
booking but no outbox row at all, so the booking write can commit while
the event is not enqueued (a crash or failure between the two commits
loses the event).  Moreover the second commit writes the outbox row with
`status = "pending"`, which violates the model's own
`ck_events_outbox_status` check constraint and is never matched by the
dispatcher's `status = 'ready'` selection filter. -/
theorem c1_outbox_second_transaction :
    create_booking demoDB 0 0 demoRequest 100 101 102 103 =
      .ok ([demoCommit1, demoCommit2], demoFirstBooking) ∧
    demoFirstBooking ∈ demoCommit1.bookings ∧
    demoCommit1.outbox = [] ∧
    demoCommit2.outbox.length = 1 ∧
    (∀ ev ∈ demoCommit2.outbox,
      ev.event_code = "BOOKING_CREATED" ∧ ev.status = "pending" ∧
      ¬ ckEventsOutboxStatus ev) ∧
    selectReadyEvents demoCommit2.outbox 999999999 100 = [] := by
  refine ⟨by decide, by decide, by decide, by decide, by decide, by decide⟩

/-! ## C8 -/

/-- Helper: an event whose status is not `"ready"` is never selected by the
worker's batch query. -/
theorem not_selected_of_status (e : EventOutbox) (h : e.status ≠ "ready")
    (events : List EventOutbox) (now lim : Nat) :
    e ∉ selectReadyEvents events now lim := by
  intro hmem
  unfold selectReadyEvents at hmem
  have h2 := List.take_subset _ _ hmem
  have h3 := (List.perm_insertionSort outboxLE _).mem_iff.mp h2
  have h4 := (List.mem_filter.mp h3).2
  unfold outboxReadyPred at h4
  rw [decide_eq_true_eq] at h4
  exact h h4.1

/-- C8: when the handler of a selected event (`status = "ready"`,
`attempts < max_attempts`) reports failure, the worker increments
`attempts` by one; if that reaches `max_attempts` the event becomes
`failed` with `failed_at` set and can never be selected again, and
otherwise the status stays `"ready"` with `ready_at` pushed exactly sixty
seconds past the processing clock. -/
theorem c8_retry_backoff (now : Nat) (e : EventOutbox)
    (hready : e.status = "ready") (hatt : e.attempts < e.max_attempts)
    (hfail : _process_single_event e = false) :
    (processOutboxEvent now e).attempts = e.attempts + 1 ∧
    (e.attempts + 1 ≥ e.max_attempts →
      (processOutboxEvent now e).status = "failed" ∧
      (processOutboxEvent now e).failed_at = some now ∧
      ∀ events t lim, processOutboxEvent now e ∉ selectReadyEvents events t lim) ∧
    (e.attempts + 1 < e.max_attempts →
      (processOutboxEvent now e).status = "ready" ∧
      (processOutboxEvent now e).ready_at = now + 60) := by
  have hmax : (if e.max_attempts = 0 then 3 else e.max_attempts) = e.max_attempts := by
    have h0 : e.max_attempts ≠ 0 := by omega
    simp [h0]
  simp only [processOutboxEvent, hfail, hmax, Bool.false_eq_true, if_false]
  by_cases hge : e.attempts + 1 ≥ e.max_attempts
  · rw [if_pos hge]
    refine ⟨rfl, fun _ => ⟨rfl, rfl, ?_⟩, fun hlt2 => absurd hge (by omega)⟩
    intro events t lim
    exact not_selected_of_status _ (by simp) events t lim
  · rw [if_neg hge]
    refine ⟨rfl, fun hge2 => absurd hge2 hge, fun _ => ⟨?_, rfl⟩⟩
    show e.status = "ready"
    exact hready

/-- C8, witness: the ready event `failingNotifyEvent` (attempts 2 of 3,
failing handler) is moved to attempts 3 and terminal `failed` status. -/
theorem c8_witness :
    (processOutboxEvent 100 failingNotifyEvent).attempts = 3 ∧
    (processOutboxEvent 100 failingNotifyEvent).status = "failed" ∧
    processOutboxEvent 100 failingNotifyEvent ∉
      selectReadyEvents demoOutbox 100 10 := by
  obtain ⟨h1, h2, _⟩ := c8_retry_backoff 100 failingNotifyEvent rfl (by decide) (by decide)
  obtain ⟨h3, _, h4⟩ := h2 (by decide)
  exact ⟨by rw [h1]; rfl, h3, h4 demoOutbox 100 10⟩

/-! ## C10 -/

/-- C10: the worker's selection takes at most `batch_limit` events, each
selected event comes from the table with `status = "ready"`,
`attempts < max_attempts` and `ready_at ≤ now`, the batch is ordered by
`ready_at` ascending, the returned count equals the number of selected
events (each handler in the worker module is a total function, so every
selected event "ran without raising"), and every event not selected is
left untouched in the table. -/
theorem c10_batch_selection (events : List EventOutbox) (now lim : Nat) :
    (selectReadyEvents events now lim).length ≤ lim ∧
    (∀ e2 ∈ selectReadyEvents events now lim,
      e2 ∈ events ∧ e2.status = "ready" ∧ e2.attempts < e2.max_attempts ∧
        e2.ready_at ≤ now) ∧
    (selectReadyEvents events now lim).Pairwise outboxLE ∧
    (process_ready_outbox_events events now lim).2 =
      (selectReadyEvents events now lim).length ∧
    (∀ e2 ∈ events, (∀ s2 ∈ selectReadyEvents events now lim, s2.id ≠ e2.id) →
      e2 ∈ (process_ready_outbox_events events now lim).1) := by
  refine ⟨?_, ?_, ?_, rfl, ?_⟩
  · unfold selectReadyEvents
    rw [List.length_take]
    exact min_le_left _ _
  · intro e2 hmem
    unfold selectReadyEvents at hmem
    have h2 := List.take_subset _ _ hmem
    have h3 := (List.perm_insertionSort outboxLE _).mem_iff.mp h2
    have h4 := List.mem_filter.mp h3
    have h5 := h4.2
    unfold outboxReadyPred at h5
    rw [decide_eq_true_eq] at h5
    exact ⟨h4.1, h5.1, h5.2.1, h5.2.2⟩
  · unfold selectReadyEvents
    exact (List.sorted_insertionSort outboxLE _).sublist (List.take_sublist _ _)
  · intro e2 hmem hnone
    have hany : (selectReadyEvents events now lim).any
        (fun s2 => decide (s2.id = e2.id)) = false := by
      rw [List.any_eq_false]
      intro s2 hs2
      simpa using hnone s2 hs2
    refine List.mem_map.mpr ⟨e2, hmem, ?_⟩
    rw [hany]
    simp

/-- C10, witness: on the concrete outbox table at clock 100 with limit 10,
the returned count equals the selection size, the bound holds, and the
not-yet-due event is left untouched. -/
theorem c10_witness :
    (process_ready_outbox_events demoOutbox 100 10).2 =
      (selectReadyEvents demoOutbox 100 10).length ∧
    (selectReadyEvents demoOutbox 100 10).length ≤ 10 ∧
    futureEvent ∈ (process_ready_outbox_events demoOutbox 100 10).1 := by
  have h := c10_batch_selection demoOutbox 100 10
  exact ⟨h.2.2.2.1, h.1, h.2.2.2.2 futureEvent (by decide)
    (by decide : ∀ s2 ∈ selectReadyEvents demoOutbox 100 10, s2.id ≠ futureEvent.id)⟩

/-- C1, witness: the concrete outbox row written by the successful booking
creation carries `status = "pending"`, violating the model's own status
check constraint. -/
theorem c1_witness :
    demoCreatedEvent.status = "pending" ∧ ¬ ckEventsOutboxStatus demoCreatedEvent := by
  have h5 := c1_outbox_second_transaction.2.2.2.2.1 demoCreatedEvent (by decide)
  exact ⟨h5.2.1, h5.2.2⟩
